import Mathlib

/-!
Shallow embedding of the trading-chart rendering engine
(src/chart/trading-chart.tsx) and proofs of the specification claims.

JavaScript double arithmetic is modelled over `ℚ`; the only places where
IEEE special values matter (division by zero in the pointer handler) use an
explicit `JSVal` type with `nan` / infinities.  String formatting follows the
ECMA-262 algorithms for `toFixed` / `toPrecision` / grouped `toLocaleString`
at the exact-rational level.
-/

namespace Chart

/-- clamp from the source: Math.min(Math.max(value, min), max). -/
def clamp (value lo hi : ℚ) : ℚ := min (max value lo) hi

/-- lerp from the source: a + (b - a) * t. -/
def lerp (a b t : ℚ) : ℚ := a + (b - a) * t

def Y_STEPS : ℕ := 5

/-- Y_SMOOTHING = 0.15 -/
def Y_SMOOTHING : ℚ := 15 / 100

def LONG_PRESS_DELAY : ℕ := 300

def DASH_LENGTH : ℚ := 4
def GAP_LENGTH : ℚ := 4

def MARKER_UP_COLOR : ℕ := 0x22c55e
def MARKER_DOWN_COLOR : ℕ := 0xef4444

/-! ## Number formatting (ECMA-262 semantics over ℚ) -/

/-- Fixed-width decimal digit characters of `n` (most significant first),
`f` characters in total, mirroring how `toFixed` renders the fraction part. -/
def fracDigitChars (f : ℕ) (n : ℕ) : List Char :=
  (List.range f).map (fun i => Nat.digitChar (n / 10 ^ (f - 1 - i) % 10))

/-- ECMA-262 `Number.prototype.toFixed` for a nonnegative rational:
pick the integer `n` with `n / 10^f` closest to `x`, larger `n` on ties. -/
def toFixedPos (f : ℕ) (x : ℚ) : String :=
  let n : ℕ := (⌊x * 10 ^ f + 1 / 2⌋).toNat
  if f = 0 then Nat.repr n
  else Nat.repr (n / 10 ^ f) ++ "." ++ String.mk (fracDigitChars f (n % 10 ^ f))

/-- ECMA-262 `toFixed`: the sign is split off first, then the magnitude is
rounded (ties to the larger integer). -/
def toFixedQ (f : ℕ) (x : ℚ) : String :=
  if x < 0 then "-" ++ toFixedPos f (-x) else toFixedPos f x

/-- Group digit characters with commas every three, from the right. -/
def groupChars (l : List Char) : List Char :=
  List.intercalate [','] (((l.reverse.toChunks 3).map List.reverse).reverse)

/-- `toLocaleString("en-US", \x7b maximumFractionDigits: 0 \x7d)`:
round to an integer (half away from zero, Intl's default halfExpand mode)
and insert `,` thousands separators. -/
def toLocaleGrouped (x : ℚ) : String :=
  let n : ℤ := if 0 ≤ x then ⌊x + 1 / 2⌋ else -⌊-x + 1 / 2⌋
  (if n < 0 then "-" else "") ++ String.mk (groupChars (Nat.repr n.natAbs).data)

/-- Floor of log10 of a positive rational. -/
def qExp10 (x : ℚ) : ℤ :=
  if 1 ≤ x then (Nat.log 10 ⌊x⌋.toNat : ℤ) else -(Nat.clog 10 ⌈x⁻¹⌉.toNat : ℤ)

/-- ECMA-262 `Number.prototype.toPrecision` over ℚ. -/
def toPrecisionQ (p : ℕ) (x : ℚ) : String :=
  if x = 0 then
    if p ≤ 1 then "0" else "0." ++ String.mk (List.replicate (p - 1) '0')
  else
    let s := if x < 0 then "-" else ""
    let a := |x|
    let e0 := qExp10 a
    let n0 : ℕ := (⌊a / (10 : ℚ) ^ (e0 - p + 1) + 1 / 2⌋).toNat
    let n : ℕ := if 10 ^ p ≤ n0 then 10 ^ (p - 1) else n0
    let e : ℤ := if 10 ^ p ≤ n0 then e0 + 1 else e0
    let ds := Nat.repr n
    if e < -6 ∨ (p : ℤ) ≤ e then
      s ++ ds.take 1 ++ (if 1 < p then "." ++ ds.drop 1 else "") ++ "e" ++
        (if 0 ≤ e then "+" else "-") ++ Nat.repr e.natAbs
    else if 0 ≤ e then
      s ++ ds.take (e.toNat + 1) ++
        (if e.toNat + 1 < p then "." ++ ds.drop (e.toNat + 1) else "")
    else
      s ++ "0." ++ String.mk (List.replicate (e.natAbs - 1) '0') ++ ds

/-- The regular expression step of `formatPrice`: match
`^0\.(0+)(\d\x7b4\x7d)` against the `toFixed(20)` string.  The `(0+)` group is
greedy but backtracks so that four characters remain for the second group;
since the subject consists of digits only, the matched zero count is
`min L (len - 4)` for `L` the number of leading zeros of the fraction. -/
def regexCompact (str : String) : Option (ℕ × String) :=
  match str.data with
  | d0 :: d1 :: rest =>
    if d0 = '0' ∧ d1 = '.' then
      let L := (rest.takeWhile (fun c => c = '0')).length
      let k := min L (rest.length - 4)
      if 1 ≤ k ∧ ((rest.drop k).take 4).length = 4 ∧
          ((rest.drop k).take 4).all Char.isDigit then
        some (k, String.mk ((rest.drop k).take 4))
      else none
    else none
  | _ => none

/-- formatPrice from the source. -/
def formatPrice (price : ℚ) : String :=
  if price = 0 then "0"
  else if 10000 ≤ price then toLocaleGrouped price
  else if 100 ≤ price then toFixedQ 2 price
  else if 1 ≤ price then toFixedQ 4 price
  else
    let str := toFixedQ 20 price
    match regexCompact str with
    | some (zeros, digits) => "0.0(" ++ Nat.repr zeros ++ ")" ++ digits
    | none => toPrecisionQ 4 price

/-- formatCurrencyCompact from the source. -/
def formatCurrencyCompact (value : ℚ) : String :=
  if value = 0 then "$0"
  else if 1000000000 ≤ value then "$" ++ toFixedQ 2 (value / 1000000000) ++ "B"
  else if 1000000 ≤ value then "$" ++ toFixedQ 2 (value / 1000000) ++ "M"
  else if 1000 ≤ value then "$" ++ toFixedQ 1 (value / 1000) ++ "K"
  else "$" ++ toFixedQ 2 value

/-- formatTimestamp renders via `Date.toLocaleDateString`, which depends on
the host locale and timezone; it is abstracted here as an injective rendering
of the epoch-second value.  No claim depends on its output. -/
def formatTimestamp (timestamp : ℤ) : String := "date:" ++ toString timestamp

/-! ## Data model -/

structure PricePoint where
  timestamp : ℤ
  price : ℚ
deriving DecidableEq

instance : Inhabited PricePoint := ⟨⟨0, 0⟩⟩

inductive MarkerKind | buy | sell
deriving DecidableEq

structure ChartMarker where
  timestamp : ℤ
  price : ℚ
  kind : MarkerKind
  label : Option String := none
deriving DecidableEq

structure Padding where
  top : ℚ
  right : ℚ
  bottom : ℚ
  left : ℚ
deriving DecidableEq

def PADDING_WITH_LABELS : Padding := ⟨20, 60, 30, 10⟩
def PADDING_WITHOUT_LABELS : Padding := ⟨10, 10, 10, 10⟩

/-- Number.EPSILON = 2^-52. -/
def epsJS : ℚ := 1 / 2 ^ 52

/-- Fold of the source loop `if (point.price < min) min = point.price`. -/
def foldMin (ps : List ℚ) (init : ℚ) : ℚ :=
  ps.foldl (fun m q => if q < m then q else m) init

/-- Fold of the source loop `if (point.price > max) max = point.price`. -/
def foldMax (ps : List ℚ) (init : ℚ) : ℚ :=
  ps.foldl (fun m q => if m < q then q else m) init

/-- Smallest price of a non-empty series the way the source loop computes it
(the `Infinity` initialiser is replaced by folding from the first element). -/
def dataMin : List PricePoint → ℚ
  | [] => 0
  | p :: rest => foldMin (rest.map (·.price)) p.price

def dataMax : List PricePoint → ℚ
  | [] => 0
  | p :: rest => foldMax (rest.map (·.price)) p.price

/-- calculateYBounds from the source. -/
def calculateYBounds (chartData : List PricePoint) : ℚ × ℚ :=
  match chartData with
  | [] => (0, 1)
  | p :: rest =>
    let mn := foldMin (rest.map (·.price)) p.price
    let mx := foldMax (rest.map (·.price)) p.price
    if mn = mx ∨ |mx - mn| < epsJS then
      let value := mn
      let pad := if 0 < value then value * (1 / 10) else 1 / 10 ^ 7
      (value - pad, value + pad)
    else
      let range := mx - mn
      let rangePadding := range * (1 / 10)
      (mn - rangePadding, mx + rangePadding)

/-! ## Axis animator -/

structure AxisState where
  min : ℚ
  max : ℚ
  targetMin : ℚ
  targetMax : ℚ
deriving DecidableEq

/-- One smoothing step of the render loop:
`yAxis.min = lerp(yAxis.min, yAxis.targetMin, Y_SMOOTHING)` and likewise
for `max`. -/
def stepAxis (a : AxisState) : AxisState :=
  { a with
    min := lerp a.min a.targetMin Y_SMOOTHING
    max := lerp a.max a.targetMax Y_SMOOTHING }

/-- Animation tolerance 0.0001 from the source. -/
def tol : ℚ := 1 / 10 ^ 4

/-- The needsAnimation test at the end of render. -/
def needsAnimation (a : AxisState) : Bool :=
  decide (tol < |a.min - a.targetMin|) || decide (tol < |a.max - a.targetMax|)

/-- `yAxis.max - yAxis.min || 1` (a zero range is replaced by 1). -/
def yRangeOf (a : AxisState) : ℚ :=
  if a.max - a.min = 0 then 1 else a.max - a.min

/-- priceToY from render:
`padding.top + chartHeight - (price - yAxis.min) * yScale`. -/
def priceToY (a : AxisState) (padding : Padding) (chartHeight : ℚ)
    (price : ℚ) : ℚ :=
  padding.top + chartHeight - (price - a.min) * (chartHeight / yRangeOf a)

/-- indexToX from render: `padding.left + index * pointSpacing`. -/
def indexToX (padding : Padding) (pointSpacing : ℚ) (index : ℚ) : ℚ :=
  padding.left + index * pointSpacing

/-- pointSpacing: `chartWidth / (data.length - 1)` for more than one point,
else 0. -/
def pointSpacingOf (chartWidth : ℚ) (n : ℕ) : ℚ :=
  if 1 < n then chartWidth / ((n : ℚ) - 1) else 0

/-! ## Gradient cache

Textures are identified by allocation order (`ℕ` ids); `destroyed` records
every id whose `destroy(true)` has been called.  The offscreen 2d context
acquisition (`canvas.getContext("2d")`) is an environment effect, passed in
as the flag `ctxOk`. -/

structure GradCache where
  texture : Option ℕ
  width : ℚ
  height : ℚ
  color : String
deriving DecidableEq

structure GradSys where
  cache : GradCache
  nextId : ℕ
  destroyed : List ℕ
deriving DecidableEq

/-- Initial `gradientCacheRef` value. -/
def initGradSys : GradSys := ⟨⟨none, 0, 0, ""⟩, 0, []⟩

/-- getGradientTexture from the source. -/
def getGradientTexture (ctxOk : Bool) (w h : ℚ) (color : String)
    (s : GradSys) : Option ℕ × GradSys :=
  if s.cache.texture.isSome ∧ s.cache.width = w ∧ s.cache.height = h ∧
      s.cache.color = color then
    (s.cache.texture, s)
  else
    let s1 := match s.cache.texture with
      | some t => { s with destroyed := t :: s.destroyed }
      | none => s
    if ctxOk then
      let t := s1.nextId
      (some t, { cache := ⟨some t, w, h, color⟩, nextId := t + 1,
                 destroyed := s1.destroyed })
    else
      -- `if (!ctx) return null;` — the texture was already destroyed but
      -- gradientCacheRef has not been reassigned.
      (none, s1)

/-- A texture id is alive when it has been allocated and not destroyed. -/
def aliveTex (s : GradSys) (t : ℕ) : Prop := t < s.nextId ∧ t ∉ s.destroyed

/-- Single-slot invariant: every live texture is the cached one (hence at
most one generation is alive). -/
def GradInv (s : GradSys) : Prop :=
  (∀ t, aliveTex s t → s.cache.texture = some t) ∧
  (∀ t, s.cache.texture = some t → t < s.nextId)

/-! ## Pointer-move index computation (JS number semantics)

`pointSpacing` is 0 for a single-point series, so
`(x - padding.left) / pointSpacing` can produce `Infinity` or `NaN`; those
values flow through `Math.round` / `Math.min` / `Math.max` as in IEEE-754. -/

inductive JSVal
  | num (q : ℚ)
  | posInf
  | negInf
  | nan
deriving DecidableEq

/-- JS division of finite doubles (ℚ has no negative zero, so a zero divisor
carries positive sign). -/
def jsDiv (a b : ℚ) : JSVal :=
  if b = 0 then
    if a = 0 then .nan else if 0 < a then .posInf else .negInf
  else .num (a / b)

/-- Math.round: floor(x + 1/2); special values propagate. -/
def jsRound : JSVal → JSVal
  | .num q => .num (⌊q + 1 / 2⌋ : ℤ)
  | .posInf => .posInf
  | .negInf => .negInf
  | .nan => .nan

/-- Math.max on two values (NaN absorbs). -/
def jsMax : JSVal → JSVal → JSVal
  | .nan, _ => .nan
  | _, .nan => .nan
  | .posInf, _ => .posInf
  | _, .posInf => .posInf
  | .negInf, b => b
  | a, .negInf => a
  | .num a, .num b => .num (max a b)

/-- Math.min on two values (NaN absorbs). -/
def jsMin : JSVal → JSVal → JSVal
  | .nan, _ => .nan
  | _, .nan => .nan
  | .negInf, _ => .negInf
  | _, .negInf => .negInf
  | .posInf, b => b
  | a, .posInf => a
  | .num a, .num b => .num (min a b)

/-- clamp applied to a JS value as in the source. -/
def clampJS (v lo hi : JSVal) : JSVal := jsMin (jsMax v lo) hi

/-- The index computation of handlePointerMove:
`clamp(Math.round((x - padding.left) / pointSpacing), 0, data.length - 1)`. -/
def moveIndex (x paddingLeft chartWidth : ℚ) (n : ℕ) : JSVal :=
  let pointSpacing := pointSpacingOf chartWidth n
  clampJS (jsRound (jsDiv (x - paddingLeft) pointSpacing))
    (.num 0) (.num ((n : ℚ) - 1))

/-- The guarded access `data[index]` (`undefined` for a non-natural or
out-of-range subscript) that feeds `onPriceSelect`. -/
def selectedPointAt (data : List PricePoint) : JSVal → Option PricePoint
  | .num q => if 0 ≤ q ∧ q.den = 1 then data.get? q.num.toNat else none
  | _ => none

/-! ## Long-press timer lifecycle -/

structure IState where
  timerPending : Bool
  isLongPress : Bool
  tornDown : Bool
deriving DecidableEq

def initIState : IState := ⟨false, false, false⟩

inductive PEvent
  | down        -- handlePointerDown: schedules the 300ms timer
  | timerFire   -- the scheduled timeout fires
  | move        -- handlePointerMove
  | up          -- handlePointerUp
  | lostCapture -- pointer capture lost: the component registers no handler
  | teardown    -- the initPixi effect cleanup
deriving DecidableEq

/-- Event step of the interaction machine, straight from the handlers.  The
teardown branch mirrors the initPixi cleanup (lines 350-367): it destroys the
application and the gradient texture but does not touch
`interaction.longPressTimer`. -/
def pstep (s : IState) : PEvent → IState
  | .down => { s with timerPending := true }
  | .timerFire =>
    if s.timerPending then
      { s with timerPending := false, isLongPress := true }
    else s
  | .move => s
  | .up => { s with timerPending := false, isLongPress := false }
  | .lostCapture => s
  | .teardown => { s with tornDown := true }

def prun (s : IState) (es : List PEvent) : IState := es.foldl pstep s

/-! ## Scene / layer manager -/

/-- Drawing primitives issued to a Graphics layer. -/
inductive DrawOp
  | moveTo (x y : ℚ)
  | lineTo (x y : ℚ)
  | closePath
  | strokeOp
  | fillOp (color : ℕ)
  | fillAlpha (color : ℕ) (alpha : ℚ)
  | circle (x y r : ℚ)
  | roundRect (x y w h r : ℚ)
  | setStroke (w : ℚ) (color : ℕ)
deriving DecidableEq

/-- A Text node added to the labels container. -/
structure LabelText where
  text : String
  x : ℚ
  y : ℚ
deriving DecidableEq

/-- Text nodes added to the tooltip container. -/
inductive TooltipItem
  | timeText (s : String) (x y : ℚ)
  | priceText (s : String) (x y : ℚ)
  | mcapText (s : String) (x y : ℚ)
deriving DecidableEq

/-- Grid: Y_STEPS+1 horizontal lines then one stroke. -/
def buildGrid (width : ℚ) (padding : Padding) (chartHeight : ℚ)
    (gridColorNum : ℕ) : List DrawOp :=
  [DrawOp.setStroke 1 gridColorNum] ++
  ((List.range (Y_STEPS + 1)).flatMap fun i =>
    let y := padding.top + (chartHeight / (Y_STEPS : ℚ)) * i
    [DrawOp.moveTo padding.left y, DrawOp.lineTo (width - padding.right) y]) ++
  [DrawOp.strokeOp]

/-- Gradient mask: closed polygon under the price line, filled white. -/
def buildMask (data : List PricePoint) (i2x p2y : ℚ → ℚ)
    (height : ℚ) (padding : Padding) : List DrawOp :=
  match data with
  | [] => []
  | p0 :: _ =>
    let firstX := i2x 0
    let firstY := p2y p0.price
    let lastX := i2x ((data.length : ℚ) - 1)
    [DrawOp.moveTo firstX firstY] ++
    (data.enum.map fun ip => DrawOp.lineTo (i2x ip.1) (p2y ip.2.price)) ++
    [DrawOp.lineTo lastX (height - padding.bottom),
     DrawOp.lineTo firstX (height - padding.bottom),
     DrawOp.closePath, DrawOp.fillOp 0xffffff]

/-- Price line stroke plus the dot on the last point. -/
def buildLine (data : List PricePoint) (i2x p2y : ℚ → ℚ)
    (lineColorNum : ℕ) : List DrawOp :=
  match data with
  | [] => []
  | p0 :: _ =>
    [DrawOp.setStroke 2 lineColorNum, DrawOp.moveTo (i2x 0) (p2y p0.price)] ++
    ((data.enum.drop 1).map fun ip =>
      DrawOp.lineTo (i2x ip.1) (p2y ip.2.price)) ++
    [DrawOp.strokeOp,
     DrawOp.circle (i2x ((data.length : ℚ) - 1))
       (p2y (data.getLastD default).price) 5,
     DrawOp.fillOp lineColorNum]

/-- Buy/sell triangles; markers whose timestamp is not in the series are
skipped. -/
def buildMarkers (markers : List ChartMarker) (data : List PricePoint)
    (i2x p2y : ℚ → ℚ) : List DrawOp :=
  markers.flatMap fun m =>
    match data.findIdx? (fun d => d.timestamp = m.timestamp) with
    | none => []
    | some index =>
      let x := i2x (index : ℚ)
      let y := p2y m.price
      match m.kind with
      | .buy => [DrawOp.moveTo x (y - 12), DrawOp.lineTo (x - 8) (y + 4),
          DrawOp.lineTo (x + 8) (y + 4), DrawOp.closePath,
          DrawOp.fillOp MARKER_UP_COLOR]
      | .sell => [DrawOp.moveTo x (y + 12), DrawOp.lineTo (x - 8) (y - 4),
          DrawOp.lineTo (x + 8) (y - 4), DrawOp.closePath,
          DrawOp.fillOp MARKER_DOWN_COLOR]

/-- Right-aligned axis labels, one per grid level. -/
def buildLabels (axis : AxisState) (width : ℚ) (padding : Padding)
    (chartHeight : ℚ) : List LabelText :=
  (List.range (Y_STEPS + 1)).map fun i =>
    let price := axis.max - ((axis.max - axis.min) / (Y_STEPS : ℚ)) * i
    let y := padding.top + (chartHeight / (Y_STEPS : ℚ)) * i
    ⟨formatPrice price, width - 8, y⟩

/-- Vertical dashed segments: `for (py = top; py < bottom; py += DASH+GAP)`. -/
def dashSegsV (x top bottom : ℚ) : List DrawOp :=
  (List.range (⌈(bottom - top) / (DASH_LENGTH + GAP_LENGTH)⌉.toNat)).flatMap
    fun k =>
      let py := top + (DASH_LENGTH + GAP_LENGTH) * k
      [DrawOp.moveTo x py, DrawOp.lineTo x (min (py + DASH_LENGTH) bottom)]

/-- Horizontal dashed segments. -/
def dashSegsH (y left right : ℚ) : List DrawOp :=
  (List.range (⌈(right - left) / (DASH_LENGTH + GAP_LENGTH)⌉.toNat)).flatMap
    fun k =>
      let px := left + (DASH_LENGTH + GAP_LENGTH) * k
      [DrawOp.moveTo px y, DrawOp.lineTo (min (px + DASH_LENGTH) right) y]

/-- The implied market cap:
`if (currentMcap && currentPrice && currentPrice > 0)
   mcap = currentMcap * (selectedPoint.price / currentPrice)`.
A supplied number is truthy when nonzero. -/
def mcapVal (mc cp : Option ℚ) (selectedPrice : ℚ) : Option ℚ :=
  match mc, cp with
  | some m, some c =>
    if m ≠ 0 ∧ c ≠ 0 ∧ 0 < c then some (m * (selectedPrice / c)) else none
  | _, _ => none

/-- Crosshair guides, long-press highlight and tooltip for the selected
point: overlay draw ops and tooltip text nodes. -/
def crosshairBlock (width height : ℚ) (padding : Padding)
    (crossColorNum lineColorNum : ℕ) (isLongPress : Bool) (pt : PricePoint)
    (x y : ℚ) (mc cp : Option ℚ) : List DrawOp × List TooltipItem :=
  let chartBottom := height - padding.bottom
  let chartRight := width - padding.right
  let dashOps :=
    [DrawOp.setStroke 1 crossColorNum] ++
    dashSegsV x padding.top chartBottom ++ [DrawOp.strokeOp] ++
    dashSegsH y padding.left chartRight ++ [DrawOp.strokeOp]
  let lpOps := if isLongPress then
      [DrawOp.circle x y 8, DrawOp.fillAlpha lineColorNum (25 / 100),
       DrawOp.circle x y 4, DrawOp.fillOp lineColorNum]
    else []
  let mcap := mcapVal mc cp pt.price
  let mcapT : Bool := match mcap with
    | some v => decide (v ≠ 0)
    | none => false
  let tooltipWidth : ℚ := 130
  let tooltipHeight : ℚ := if mcapT then 65 else 50
  let flipTooltip : Bool := decide (width - tooltipWidth - 30 < x)
  let tooltipX := if flipTooltip then max 10 (x - tooltipWidth - 15)
    else min (x + 15) (width - tooltipWidth - 10)
  let tooltipY := clamp (y - tooltipHeight / 2) 10 (height - tooltipHeight - 10)
  let boxOps :=
    [DrawOp.roundRect tooltipX tooltipY tooltipWidth tooltipHeight 6,
     DrawOp.fillAlpha 0xffffff (97 / 100), DrawOp.setStroke 1 0xe5e5e5,
     DrawOp.strokeOp]
  let items :=
    [TooltipItem.timeText (formatTimestamp pt.timestamp)
       (tooltipX + 8) (tooltipY + 6),
     TooltipItem.priceText ("$" ++ formatPrice pt.price)
       (tooltipX + 8) (tooltipY + 26)] ++
    (match mcap with
     | some v =>
       if v ≠ 0 then
         [TooltipItem.mcapText ("MCAP: " ++ formatCurrencyCompact v)
            (tooltipX + 8) (tooltipY + 42)]
       else []
     | none => [])
  (dashOps ++ lpOps ++ boxOps, items)

/-- The chart component state read and written by `render`. -/
structure RState where
  ready : Bool
  width : ℚ
  height : ℚ
  data : List PricePoint
  markers : List ChartMarker
  padding : Padding
  showGrid : Bool
  showAxisLabels : Bool
  lineColor : String
  lineColorNum : ℕ
  gridColorNum : ℕ
  crosshairColorNum : ℕ
  axis : AxisState
  isLongPress : Bool
  crosshairX : ℚ
  crosshairY : ℚ
  selectedIndex : ℤ
  currentMcap : Option ℚ
  currentPrice : Option ℚ
  gridLayer : List DrawOp
  chartLayer : List DrawOp
  overlayLayer : List DrawOp
  gradientMask : List DrawOp
  labelsContainer : List LabelText
  tooltipContainer : List TooltipItem
  gradientSpriteTexture : Option ℕ
  gradientSpriteX : ℚ
  gradientSpriteY : ℚ
  gradientSpriteW : ℚ
  gradientSpriteH : ℚ
  grad : GradSys
  ctxOk : Bool
deriving DecidableEq

/-- What one `render()` call produced: the new state, whether a frame was
submitted (`app.render()`), and whether another animation frame was
requested. -/
structure RResult where
  state : RState
  frameSubmitted : Bool
  frameRequested : Bool
deriving DecidableEq

/-- The six clear/removeChildren calls at the top of render. -/
def clearLayers (s : RState) : RState :=
  { s with gridLayer := [], chartLayer := [], overlayLayer := [],
           gradientMask := [], labelsContainer := [], tooltipContainer := [] }

/-- The body of render past the precondition checks (data known non-empty,
layers already cleared). -/
def mainRender (s : RState) : RResult :=
  let chartWidth := s.width - s.padding.left - s.padding.right
  let chartHeight := s.height - s.padding.top - s.padding.bottom
  let axis := stepAxis s.axis
  let pointSpacing := pointSpacingOf chartWidth s.data.length
  let i2x : ℚ → ℚ := indexToX s.padding pointSpacing
  let p2y : ℚ → ℚ := priceToY axis s.padding chartHeight
  let gridL := if s.showGrid then
      buildGrid s.width s.padding chartHeight s.gridColorNum else []
  let gg := getGradientTexture s.ctxOk s.width chartHeight s.lineColor s.grad
  let sprite : Option ℕ × (ℚ × ℚ × ℚ × ℚ) :=
    match gg.1 with
    | some t => (some t, (0, s.padding.top, s.width, chartHeight))
    | none => (s.gradientSpriteTexture,
        (s.gradientSpriteX, s.gradientSpriteY,
         s.gradientSpriteW, s.gradientSpriteH))
  let maskL := buildMask s.data i2x p2y s.height s.padding
  let lineL := buildLine s.data i2x p2y s.lineColorNum
  let markerL := buildMarkers s.markers s.data i2x p2y
  let labelsL := if s.showAxisLabels then
      buildLabels axis s.width s.padding chartHeight else []
  let cross : List DrawOp × List TooltipItem :=
    if 0 ≤ s.crosshairX ∧ 0 ≤ s.selectedIndex then
      match s.data.get? s.selectedIndex.toNat with
      | some pt =>
        crosshairBlock s.width s.height s.padding s.crosshairColorNum
          s.lineColorNum s.isLongPress pt (i2x (s.selectedIndex : ℚ))
          (p2y pt.price) s.currentMcap s.currentPrice
      | none => ([], [])
    else ([], [])
  { state := { s with
      axis := axis
      gridLayer := gridL
      chartLayer := lineL ++ markerL
      gradientMask := maskL
      overlayLayer := cross.1
      labelsContainer := labelsL
      tooltipContainer := cross.2
      gradientSpriteTexture := sprite.1
      gradientSpriteX := sprite.2.1
      gradientSpriteY := sprite.2.2.1
      gradientSpriteW := sprite.2.2.2.1
      gradientSpriteH := sprite.2.2.2.2
      grad := gg.2 }
    frameSubmitted := true
    frameRequested := needsAnimation axis }

/-- render() from the source: precondition checks, clears, then the draw
pipeline. -/
def render (s : RState) : RResult :=
  if s.ready = false then ⟨s, false, false⟩
  else if s.width = 0 ∨ s.height = 0 then ⟨s, false, false⟩
  else
    let sc := clearLayers s
    if sc.data = [] then ⟨sc, false, false⟩
    else mainRender sc

/-- The series of the spec scenario. -/
def scenarioSeries : List PricePoint := [⟨0, 100⟩, ⟨60, 110⟩, ⟨120, 90⟩]

/-- Axis state right after the data-change effect snapped the live bounds to
the freshly computed targets. -/
def scenarioAxis : AxisState :=
  ⟨(calculateYBounds scenarioSeries).1, (calculateYBounds scenarioSeries).2,
   (calculateYBounds scenarioSeries).1, (calculateYBounds scenarioSeries).2⟩

/-! ## Helper lemmas -/

lemma foldMin_le (ps : List ℚ) (i : ℚ) : foldMin ps i ≤ i := by
  induction ps generalizing i with
  | nil => simp [foldMin]
  | cons q ps ih =>
    refine le_trans (ih (if q < i then q else i)) ?_
    split_ifs with h
    · exact le_of_lt h
    · exact le_rfl

lemma le_foldMax (ps : List ℚ) (i : ℚ) : i ≤ foldMax ps i := by
  induction ps generalizing i with
  | nil => simp [foldMax]
  | cons q ps ih =>
    refine le_trans ?_ (ih (if i < q then q else i))
    split_ifs with h
    · exact le_of_lt h
    · exact le_rfl

lemma dataMin_le_dataMax {data : List PricePoint} (h : data ≠ []) :
    dataMin data ≤ dataMax data := by
  cases data with
  | nil => exact absurd rfl h
  | cons p rest =>
    exact le_trans (foldMin_le _ _) (le_foldMax _ _)

/-- For a non-degenerate axis range, `yRangeOf` is just the range. -/
lemma yRangeOf_pos (a : AxisState) (h : a.min < a.max) :
    yRangeOf a = a.max - a.min := by
  unfold yRangeOf
  rw [if_neg]
  intro hc
  linarith

/-- priceToY is strictly decreasing in the price whenever the axis range and
the chart height are positive. -/
lemma priceToY_lt (a : AxisState) (pad : Padding) (ch p1 p2 : ℚ)
    (h : a.min < a.max) (hch : 0 < ch) (hp : p2 < p1) :
    priceToY a pad ch p1 < priceToY a pad ch p2 := by
  unfold priceToY
  rw [yRangeOf_pos a h]
  have hs : 0 < ch / (a.max - a.min) := div_pos hch (by linarith)
  have := mul_lt_mul_of_pos_right
    (show p2 - a.min < p1 - a.min by linarith) hs
  linarith

/-! ## C1 -/

/-- C1: priceToY computes
`paddingTop + chartHeight - (price - axisMin) * (chartHeight / axisRange)`
with `axisRange = max(axisMax - axisMin, ε)` (for any positive ε at most the
actual range, i.e. whenever the AxisState invariant `max > min` holds), it is
strictly decreasing in the price for a positive chart height, and on the
series [(0,100),(60,110),(120,90)] with the default padding the mapped Y
values satisfy Y(110) < Y(100) < Y(90). -/
theorem c1_priceToY_formula_monotone_scenario :
    (∀ (a : AxisState) (pad : Padding) (ch price eps : ℚ),
      a.min < a.max → 0 < eps → eps ≤ a.max - a.min →
      priceToY a pad ch price =
        pad.top + ch - (price - a.min) * (ch / max (a.max - a.min) eps)) ∧
    (∀ (a : AxisState) (pad : Padding) (ch p1 p2 : ℚ),
      a.min < a.max → 0 < ch → p2 < p1 →
      priceToY a pad ch p1 < priceToY a pad ch p2) ∧
    (∀ ch : ℚ, 0 < ch →
      priceToY (stepAxis scenarioAxis) PADDING_WITH_LABELS ch 110 <
        priceToY (stepAxis scenarioAxis) PADDING_WITH_LABELS ch 100 ∧
      priceToY (stepAxis scenarioAxis) PADDING_WITH_LABELS ch 100 <
        priceToY (stepAxis scenarioAxis) PADDING_WITH_LABELS ch 90) := by
  refine ⟨?_, ?_, ?_⟩
  · intro a pad ch price eps h heps hle
    unfold priceToY
    rw [yRangeOf_pos a h, max_eq_left hle]
  · exact fun a pad ch p1 p2 h hch hp => priceToY_lt a pad ch p1 p2 h hch hp
  · intro ch hch
    have hb : calculateYBounds scenarioSeries = (88, 112) := by
      simp only [calculateYBounds, scenarioSeries, foldMin, foldMax,
        List.map, List.foldl]
      norm_num [epsJS]
    have ha : stepAxis scenarioAxis = ⟨88, 112, 88, 112⟩ := by
      simp only [scenarioAxis, hb]
      simp only [stepAxis, lerp, Y_SMOOTHING, AxisState.mk.injEq]
      norm_num
    rw [ha]
    exact ⟨priceToY_lt _ _ _ _ _ (by norm_num) hch (by norm_num),
           priceToY_lt _ _ _ _ _ (by norm_num) hch (by norm_num)⟩

/-- Witness for C1 at the scenario axis state ⟨88,112,88,112⟩, chart height
250 and ε = 1. -/
theorem c1_witness :
    ((⟨88, 112, 88, 112⟩ : AxisState).min < (⟨88, 112, 88, 112⟩ : AxisState).max ∧
      (0 : ℚ) < 1 ∧ (1 : ℚ) ≤ (⟨88, 112, 88, 112⟩ : AxisState).max - (⟨88, 112, 88, 112⟩ : AxisState).min ∧
      (0 : ℚ) < 250 ∧ (100 : ℚ) < 110) ∧
    priceToY ⟨88, 112, 88, 112⟩ PADDING_WITH_LABELS 250 110 =
      PADDING_WITH_LABELS.top + 250 -
        (110 - (⟨88, 112, 88, 112⟩ : AxisState).min) *
          (250 / max ((⟨88, 112, 88, 112⟩ : AxisState).max - (⟨88, 112, 88, 112⟩ : AxisState).min) 1) ∧
    priceToY ⟨88, 112, 88, 112⟩ PADDING_WITH_LABELS 250 110 <
      priceToY ⟨88, 112, 88, 112⟩ PADDING_WITH_LABELS 250 100 ∧
    (priceToY (stepAxis scenarioAxis) PADDING_WITH_LABELS 250 110 <
       priceToY (stepAxis scenarioAxis) PADDING_WITH_LABELS 250 100 ∧
     priceToY (stepAxis scenarioAxis) PADDING_WITH_LABELS 250 100 <
       priceToY (stepAxis scenarioAxis) PADDING_WITH_LABELS 250 90) :=
  ⟨⟨by norm_num, by norm_num, by norm_num, by norm_num, by norm_num⟩,
   c1_priceToY_formula_monotone_scenario.1 ⟨88, 112, 88, 112⟩
     PADDING_WITH_LABELS 250 110 1 (by norm_num) (by norm_num) (by norm_num),
   c1_priceToY_formula_monotone_scenario.2.1 ⟨88, 112, 88, 112⟩
     PADDING_WITH_LABELS 250 110 100 (by norm_num) (by norm_num) (by norm_num),
   c1_priceToY_formula_monotone_scenario.2.2 250 (by norm_num)⟩

/-! ## C2 -/

/-- C2 counterexample: for the constant series at price -5 the code pads by
the fixed ε = 1e-7, not by ±10% of the value (under either sign reading of
"10% of the value"), so the claimed ±10% rule for nonzero constant series is
false for negative prices. -/
theorem c2_counterexample :
    calculateYBounds [⟨0, -5⟩] = (-5 - 1 / 10 ^ 7, -5 + 1 / 10 ^ 7) ∧
    (calculateYBounds [⟨0, -5⟩]).1 ≠ -5 - (1 / 10) * (-5) ∧
    (calculateYBounds [⟨0, -5⟩]).1 ≠ -5 - (1 / 10) * 5 ∧
    (calculateYBounds [⟨0, -5⟩]).2 ≠ -5 + (1 / 10) * (-5) ∧
    (calculateYBounds [⟨0, -5⟩]).2 ≠ -5 + (1 / 10) * 5 := by
  have h : calculateYBounds [⟨0, -5⟩] = (-5 - 1 / 10 ^ 7, -5 + 1 / 10 ^ 7) := by
    simp only [calculateYBounds, foldMin, foldMax, List.map, List.foldl]
    norm_num [epsJS]
  refine ⟨h, ?_, ?_, ?_, ?_⟩ <;> rw [h] <;> norm_num

/-- C2 (amended): calculateYBounds always returns max > min strictly on a
non-empty series; a series whose price range is at least Number.EPSILON gets
dataMin - 0.1*range and dataMax + 0.1*range; a constant series is padded by
±10% of the value when the value is positive, and by the fixed ε = 1e-7 when
the value is ≤ 0 (so a constant-zero series yields (-ε, ε)); a single-point
series is always defined by the constant rule. -/
theorem c2_axis_bounds_amended :
    (∀ data : List PricePoint, data ≠ [] →
      (calculateYBounds data).1 < (calculateYBounds data).2) ∧
    (∀ data : List PricePoint, data ≠ [] →
      ¬(dataMin data = dataMax data ∨ |dataMax data - dataMin data| < epsJS) →
      calculateYBounds data =
        (dataMin data - (dataMax data - dataMin data) * (1 / 10),
         dataMax data + (dataMax data - dataMin data) * (1 / 10))) ∧
    (∀ data : List PricePoint, data ≠ [] → dataMin data = dataMax data →
      0 < dataMin data →
      calculateYBounds data =
        (dataMin data - dataMin data * (1 / 10),
         dataMin data + dataMin data * (1 / 10))) ∧
    (∀ data : List PricePoint, data ≠ [] → dataMin data = dataMax data →
      dataMin data ≤ 0 →
      calculateYBounds data =
        (dataMin data - 1 / 10 ^ 7, dataMin data + 1 / 10 ^ 7)) ∧
    (∀ (t : ℤ) (v : ℚ), 0 < v →
      calculateYBounds [⟨t, v⟩] = (v - v * (1 / 10), v + v * (1 / 10))) ∧
    (∀ t : ℤ, calculateYBounds [⟨t, 0⟩] = (-(1 / 10 ^ 7), 1 / 10 ^ 7)) := by
  have hunfold : ∀ (p : PricePoint) (rest : List PricePoint),
      calculateYBounds (p :: rest) =
        if dataMin (p :: rest) = dataMax (p :: rest) ∨
            |dataMax (p :: rest) - dataMin (p :: rest)| < epsJS then
          (dataMin (p :: rest) -
             (if 0 < dataMin (p :: rest) then dataMin (p :: rest) * (1 / 10)
              else 1 / 10 ^ 7),
           dataMin (p :: rest) +
             (if 0 < dataMin (p :: rest) then dataMin (p :: rest) * (1 / 10)
              else 1 / 10 ^ 7))
        else
          (dataMin (p :: rest) -
             (dataMax (p :: rest) - dataMin (p :: rest)) * (1 / 10),
           dataMax (p :: rest) +
             (dataMax (p :: rest) - dataMin (p :: rest)) * (1 / 10)) := by
    intro p rest
    rfl
  refine ⟨?_, ?_, ?_, ?_, ?_, ?_⟩
  · intro data hne
    cases data with
    | nil => exact absurd rfl hne
    | cons p rest =>
      rw [hunfold]
      have hmm : dataMin (p :: rest) ≤ dataMax (p :: rest) :=
        dataMin_le_dataMax (by simp)
      split_ifs with h1 h2
      · have : 0 < dataMin (p :: rest) * (1 / 10) :=
          mul_pos h2 (by norm_num)
        simp only
        linarith
      · simp only
        linarith [show (0:ℚ) < 1 / 10 ^ 7 by norm_num]
      · have hne2 : dataMin (p :: rest) ≠ dataMax (p :: rest) := by
          intro hc
          exact h1 (Or.inl hc)
        have hlt : dataMin (p :: rest) < dataMax (p :: rest) :=
          lt_of_le_of_ne hmm hne2
        have : 0 < (dataMax (p :: rest) - dataMin (p :: rest)) * (1 / 10) :=
          mul_pos (by linarith) (by norm_num)
        simp only
        linarith
  · intro data hne h
    cases data with
    | nil => exact absurd rfl hne
    | cons p rest =>
      rw [hunfold, if_neg h]
  · intro data hne heq hpos
    cases data with
    | nil => exact absurd rfl hne
    | cons p rest =>
      rw [hunfold, if_pos (Or.inl heq), if_pos hpos]
  · intro data hne heq hle
    cases data with
    | nil => exact absurd rfl hne
    | cons p rest =>
      rw [hunfold, if_pos (Or.inl heq), if_neg (by exact not_lt.mpr hle)]
  · intro t v hv
    have heq : dataMin [(⟨t, v⟩ : PricePoint)] = dataMax [⟨t, v⟩] := rfl
    rw [hunfold ⟨t, v⟩ [], if_pos (Or.inl heq)]
    have hdm : dataMin [(⟨t, v⟩ : PricePoint)] = v := rfl
    rw [hdm, if_pos hv]
  · intro t
    have heq : dataMin [(⟨t, 0⟩ : PricePoint)] = dataMax [⟨t, 0⟩] := rfl
    rw [hunfold ⟨t, 0⟩ [], if_pos (Or.inl heq)]
    have hdm : dataMin [(⟨t, 0⟩ : PricePoint)] = (0 : ℚ) := rfl
    rw [hdm, if_neg (by norm_num)]
    norm_num

/-- Witness for C2 (amended) at concrete series. -/
theorem c2_witness :
    ([(⟨0, 100⟩ : PricePoint), ⟨60, 110⟩, ⟨120, 90⟩] ≠ ([] : List PricePoint) ∧
      ¬(dataMin [(⟨0, 100⟩ : PricePoint), ⟨60, 110⟩, ⟨120, 90⟩] =
          dataMax [(⟨0, 100⟩ : PricePoint), ⟨60, 110⟩, ⟨120, 90⟩] ∨
        |dataMax [(⟨0, 100⟩ : PricePoint), ⟨60, 110⟩, ⟨120, 90⟩] -
          dataMin [(⟨0, 100⟩ : PricePoint), ⟨60, 110⟩, ⟨120, 90⟩]| < epsJS) ∧
      [(⟨0, 7⟩ : PricePoint), ⟨1, 7⟩] ≠ ([] : List PricePoint) ∧
      dataMin [(⟨0, 7⟩ : PricePoint), ⟨1, 7⟩] =
        dataMax [(⟨0, 7⟩ : PricePoint), ⟨1, 7⟩] ∧
      (0 : ℚ) < dataMin [(⟨0, 7⟩ : PricePoint), ⟨1, 7⟩] ∧
      (0 : ℚ) < 5) ∧
    (calculateYBounds [⟨0, 100⟩, ⟨60, 110⟩, ⟨120, 90⟩]).1 <
      (calculateYBounds [⟨0, 100⟩, ⟨60, 110⟩, ⟨120, 90⟩]).2 ∧
    calculateYBounds [⟨0, 100⟩, ⟨60, 110⟩, ⟨120, 90⟩] =
      (dataMin [(⟨0, 100⟩ : PricePoint), ⟨60, 110⟩, ⟨120, 90⟩] -
         (dataMax [(⟨0, 100⟩ : PricePoint), ⟨60, 110⟩, ⟨120, 90⟩] -
          dataMin [(⟨0, 100⟩ : PricePoint), ⟨60, 110⟩, ⟨120, 90⟩]) * (1 / 10),
       dataMax [(⟨0, 100⟩ : PricePoint), ⟨60, 110⟩, ⟨120, 90⟩] +
         (dataMax [(⟨0, 100⟩ : PricePoint), ⟨60, 110⟩, ⟨120, 90⟩] -
          dataMin [(⟨0, 100⟩ : PricePoint), ⟨60, 110⟩, ⟨120, 90⟩]) * (1 / 10)) ∧
    calculateYBounds [⟨0, 7⟩, ⟨1, 7⟩] =
      (dataMin [(⟨0, 7⟩ : PricePoint), ⟨1, 7⟩] -
         dataMin [(⟨0, 7⟩ : PricePoint), ⟨1, 7⟩] * (1 / 10),
       dataMin [(⟨0, 7⟩ : PricePoint), ⟨1, 7⟩] +
         dataMin [(⟨0, 7⟩ : PricePoint), ⟨1, 7⟩] * (1 / 10)) ∧
    calculateYBounds [⟨3, 5⟩] = (5 - 5 * (1 / 10), 5 + 5 * (1 / 10)) ∧
    calculateYBounds [⟨3, 0⟩] = (-(1 / 10 ^ 7), 1 / 10 ^ 7) :=
  ⟨⟨by simp,
    by norm_num [dataMin, dataMax, foldMin, foldMax, List.map, List.foldl, epsJS],
    by simp, rfl,
    by norm_num [dataMin, foldMin, List.map, List.foldl],
    by norm_num⟩,
   c2_axis_bounds_amended.1 _ (by simp),
   c2_axis_bounds_amended.2.1 _ (by simp)
     (by norm_num [dataMin, dataMax, foldMin, foldMax, List.map, List.foldl,
        epsJS]),
   c2_axis_bounds_amended.2.2.1 _ (by simp) rfl
     (by norm_num [dataMin, foldMin, List.map, List.foldl]),
   c2_axis_bounds_amended.2.2.2.2.1 3 5 (by norm_num),
   c2_axis_bounds_amended.2.2.2.2.2 3⟩

/-! ## C3 -/

/-- render reduces to the main pipeline once all preconditions hold. -/
lemma render_eq_mainRender (s : RState) (h1 : s.ready = true)
    (h2 : ¬(s.width = 0 ∨ s.height = 0)) (h3 : s.data ≠ []) :
    render s = mainRender (clearLayers s) := by
  unfold render
  rw [if_neg (by simp [h1]), if_neg h2, if_neg (by simpa [clearLayers] using h3)]

/-- Projections of mainRender needed by several claims. -/
lemma mainRender_frameRequested (s : RState) :
    (mainRender s).frameRequested = needsAnimation (stepAxis s.axis) := rfl

/-- C3: each frame advances each live bound by exactly 15% of the remaining
distance toward its target (targets unchanged), which strictly shrinks the
distance whenever it is nonzero, and — under the render preconditions —
another animation frame is requested iff the post-step distance on either
side exceeds the 1e-4 tolerance. -/
theorem c3_axis_animation :
    (∀ a : AxisState,
      (stepAxis a).min = a.min + (15 / 100) * (a.targetMin - a.min) ∧
      (stepAxis a).max = a.max + (15 / 100) * (a.targetMax - a.max) ∧
      (stepAxis a).targetMin = a.targetMin ∧
      (stepAxis a).targetMax = a.targetMax) ∧
    (∀ a : AxisState, a.min ≠ a.targetMin →
      |(stepAxis a).min - a.targetMin| < |a.min - a.targetMin|) ∧
    (∀ a : AxisState, a.max ≠ a.targetMax →
      |(stepAxis a).max - a.targetMax| < |a.max - a.targetMax|) ∧
    (∀ s : RState, s.ready = true → s.width ≠ 0 → s.height ≠ 0 →
      s.data ≠ [] →
      ((render s).frameRequested = true ↔
        (1 / 10 ^ 4 < |(stepAxis s.axis).min - s.axis.targetMin| ∨
         1 / 10 ^ 4 < |(stepAxis s.axis).max - s.axis.targetMax|))) := by
  refine ⟨?_, ?_, ?_, ?_⟩
  · intro a
    refine ⟨?_, ?_, rfl, rfl⟩ <;> simp [stepAxis, lerp, Y_SMOOTHING] <;> ring
  · intro a h
    have heq : (stepAxis a).min - a.targetMin =
        (a.min - a.targetMin) * (85 / 100) := by
      simp only [stepAxis, lerp, Y_SMOOTHING]
      ring
    rw [heq, abs_mul, show |(85 : ℚ) / 100| = 85 / 100 by norm_num]
    have hpos : 0 < |a.min - a.targetMin| := abs_pos.2 (sub_ne_zero.2 h)
    nlinarith
  · intro a h
    have heq : (stepAxis a).max - a.targetMax =
        (a.max - a.targetMax) * (85 / 100) := by
      simp only [stepAxis, lerp, Y_SMOOTHING]
      ring
    rw [heq, abs_mul, show |(85 : ℚ) / 100| = 85 / 100 by norm_num]
    have hpos : 0 < |a.max - a.targetMax| := abs_pos.2 (sub_ne_zero.2 h)
    nlinarith
  · intro s h1 hw hh h3
    rw [render_eq_mainRender s h1 (by simp [hw, hh]) h3,
        mainRender_frameRequested]
    have hax : (clearLayers s).axis = s.axis := rfl
    rw [hax]
    simp only [needsAnimation, Bool.or_eq_true, decide_eq_true_eq, tol]
    have ht1 : (stepAxis s.axis).targetMin = s.axis.targetMin := rfl
    have ht2 : (stepAxis s.axis).targetMax = s.axis.targetMax := rfl
    rw [ht1, ht2]

/-- A fully initialised chart state used to instantiate theorems with
hypotheses at concrete inputs. -/
def baseState : RState where
  ready := true
  width := 200
  height := 100
  data := scenarioSeries
  markers := []
  padding := PADDING_WITH_LABELS
  showGrid := false
  showAxisLabels := false
  lineColor := "#09090b"
  lineColorNum := 0x09090b
  gridColorNum := 0xf4f4f5
  crosshairColorNum := 0xa1a1aa
  axis := ⟨88, 112, 88, 112⟩
  isLongPress := false
  crosshairX := -1
  crosshairY := -1
  selectedIndex := -1
  currentMcap := none
  currentPrice := none
  gridLayer := []
  chartLayer := []
  overlayLayer := []
  gradientMask := []
  labelsContainer := []
  tooltipContainer := []
  gradientSpriteTexture := none
  gradientSpriteX := 0
  gradientSpriteY := 0
  gradientSpriteW := 0
  gradientSpriteH := 0
  grad := initGradSys
  ctxOk := true

/-- Witness for C3 at the axis state ⟨0,1,1,1⟩ and at `baseState`. -/
theorem c3_witness :
    ((⟨0, 1, 1, 1⟩ : AxisState).min ≠ (⟨0, 1, 1, 1⟩ : AxisState).targetMin ∧
      baseState.ready = true ∧ baseState.width ≠ 0 ∧ baseState.height ≠ 0 ∧
      baseState.data ≠ []) ∧
    |(stepAxis ⟨0, 1, 1, 1⟩).min - (⟨0, 1, 1, 1⟩ : AxisState).targetMin| <
      |(⟨0, 1, 1, 1⟩ : AxisState).min - (⟨0, 1, 1, 1⟩ : AxisState).targetMin| ∧
    ((render baseState).frameRequested = true ↔
      (1 / 10 ^ 4 < |(stepAxis baseState.axis).min - baseState.axis.targetMin| ∨
       1 / 10 ^ 4 < |(stepAxis baseState.axis).max - baseState.axis.targetMax|)) :=
  ⟨⟨by norm_num, rfl, by norm_num [baseState], by norm_num [baseState],
     by simp [baseState, scenarioSeries]⟩,
   c3_axis_animation.2.1 ⟨0, 1, 1, 1⟩ (by norm_num),
   c3_axis_animation.2.2.2 baseState rfl (by norm_num [baseState])
     (by norm_num [baseState]) (by simp [baseState, scenarioSeries])⟩

/-! ## C4 -/

/-- C4: the gradient cache returns the identical texture id and leaves the
state unchanged when all three key fields match the cached record; on a key
change (with the offscreen context available) it destroys the old texture,
returns a freshly allocated one and re-caches it; and in every case —
context failures included — the single-slot invariant that every live
texture is the cached one is preserved, so at most one generation is ever
alive. -/
theorem c4_gradient_cache :
    (∀ (s : GradSys) (w h : ℚ) (c : String) (t : ℕ),
      s.cache.texture = some t → s.cache.width = w → s.cache.height = h →
      s.cache.color = c → getGradientTexture true w h c s = (some t, s)) ∧
    (∀ (s : GradSys) (w h : ℚ) (c : String),
      GradInv s →
      ¬(s.cache.texture.isSome ∧ s.cache.width = w ∧ s.cache.height = h ∧
          s.cache.color = c) →
      (∀ t, s.cache.texture = some t →
        t ∈ (getGradientTexture true w h c s).2.destroyed ∧
        some t ≠ (getGradientTexture true w h c s).1) ∧
      (getGradientTexture true w h c s).1 = some s.nextId ∧
      (getGradientTexture true w h c s).2.cache = ⟨some s.nextId, w, h, c⟩) ∧
    (∀ (s : GradSys) (ctxOk : Bool) (w h : ℚ) (c : String),
      GradInv s → GradInv (getGradientTexture ctxOk w h c s).2) := by
  refine ⟨?_, ?_, ?_⟩
  · intro s w h c t ht hw hh hc
    unfold getGradientTexture
    rw [if_pos ⟨by simp [ht], hw, hh, hc⟩, ht]
  · intro s w h c hinv hne
    unfold getGradientTexture
    rw [if_neg hne]
    cases hct : s.cache.texture with
    | none =>
      dsimp only
      refine ⟨fun t ht => absurd ht (by simp), rfl, rfl⟩
    | some t0 =>
      dsimp only
      refine ⟨fun t ht => ?_, rfl, rfl⟩
      have htt : t0 = t := Option.some_injective _ ht
      subst htt
      refine ⟨List.mem_cons_self _ _, fun hcon => ?_⟩
      have hlt : t0 < s.nextId := hinv.2 t0 hct
      have heq : t0 = s.nextId := Option.some_injective _ hcon
      omega
  · intro s ctxOk w h c hinv
    simp only [GradInv, aliveTex] at hinv
    unfold getGradientTexture
    by_cases hm : (s.cache.texture.isSome = true ∧ s.cache.width = w ∧
        s.cache.height = h ∧ s.cache.color = c)
    · rw [if_pos hm]
      simp only [GradInv, aliveTex]
      exact hinv
    · rw [if_neg hm]
      cases hct : s.cache.texture with
      | none =>
        cases ctxOk with
        | false =>
          rw [if_neg (by simp)]
          simp only [GradInv, aliveTex]
          exact hinv
        | true =>
          rw [if_pos rfl]
          simp only [GradInv, aliveTex]
          constructor
          · rintro t ⟨hlt, hnd⟩
            have hlt' : t < s.nextId + 1 := hlt
            have hnd' : t ∉ s.destroyed := hnd
            show (some s.nextId : Option ℕ) = some t
            rcases Nat.lt_succ_iff_lt_or_eq.1 hlt' with h' | heq
            · exact absurd (hinv.1 t ⟨h', hnd'⟩) (by simp [hct])
            · rw [heq]
          · intro t ht
            have ht' : (some s.nextId : Option ℕ) = some t := ht
            have heq := Option.some_injective _ ht'
            show t < s.nextId + 1
            omega
      | some t0 =>
        cases ctxOk with
        | false =>
          rw [if_neg (by simp)]
          simp only [GradInv, aliveTex]
          constructor
          · rintro t ⟨hlt, hnd⟩
            have hlt' : t < s.nextId := hlt
            have hnd' : t ∉ t0 :: s.destroyed := hnd
            simp only [List.mem_cons, not_or] at hnd'
            show s.cache.texture = some t
            exact hinv.1 t ⟨hlt', hnd'.2⟩
          · intro t ht
            have ht' : s.cache.texture = some t := ht
            show t < s.nextId
            exact hinv.2 t ht'
        | true =>
          rw [if_pos rfl]
          simp only [GradInv, aliveTex]
          constructor
          · rintro t ⟨hlt, hnd⟩
            have hlt' : t < s.nextId + 1 := hlt
            have hnd' : t ∉ t0 :: s.destroyed := hnd
            simp only [List.mem_cons, not_or] at hnd'
            show (some s.nextId : Option ℕ) = some t
            rcases Nat.lt_succ_iff_lt_or_eq.1 hlt' with h' | heq
            · have hcc := hinv.1 t ⟨h', hnd'.2⟩
              rw [hct] at hcc
              exact absurd (Option.some_injective _ hcc) (Ne.symm hnd'.1)
            · rw [heq]
          · intro t ht
            have ht' : (some s.nextId : Option ℕ) = some t := ht
            have heq := Option.some_injective _ ht'
            show t < s.nextId + 1
            omega

/-- A gradient system holding one live cached texture. -/
def gradS0 : GradSys := ⟨⟨some 0, 100, 50, "#09090b"⟩, 1, []⟩

/-- Witness for C4 at `gradS0`: a repeat request returns the same id with
the state untouched, a changed width yields the fresh id 1 with the record
re-keyed, and the invariant survives a context failure. -/
theorem c4_witness :
    (gradS0.cache.texture = some 0 ∧ gradS0.cache.width = 100 ∧
      gradS0.cache.height = 50 ∧ gradS0.cache.color = "#09090b" ∧
      GradInv gradS0 ∧
      ¬(gradS0.cache.texture.isSome ∧ gradS0.cache.width = 200 ∧
        gradS0.cache.height = 50 ∧ gradS0.cache.color = "#09090b")) ∧
    getGradientTexture true 100 50 "#09090b" gradS0 = (some 0, gradS0) ∧
    ((getGradientTexture true 200 50 "#09090b" gradS0).1 =
        some gradS0.nextId ∧
      (getGradientTexture true 200 50 "#09090b" gradS0).2.cache =
        ⟨some gradS0.nextId, 200, 50, "#09090b"⟩) ∧
    GradInv (getGradientTexture false 200 50 "#09090b" gradS0).2 := by
  have hInv : GradInv gradS0 := by
    constructor
    · rintro t ⟨hlt, _⟩
      simp only [gradS0] at hlt ⊢
      have ht0 : t = 0 := by omega
      rw [ht0]
    · intro t ht
      simp only [gradS0, Option.some.injEq] at ht ⊢
      omega
  have hne : ¬(gradS0.cache.texture.isSome ∧ gradS0.cache.width = 200 ∧
      gradS0.cache.height = 50 ∧ gradS0.cache.color = "#09090b") := by
    intro hcon
    have := hcon.2.1
    norm_num [gradS0] at this
  refine ⟨⟨rfl, rfl, rfl, rfl, hInv, hne⟩,
    c4_gradient_cache.1 gradS0 100 50 "#09090b" 0 rfl rfl rfl rfl,
    ⟨(c4_gradient_cache.2.1 gradS0 200 50 "#09090b" hInv hne).2.1,
     (c4_gradient_cache.2.1 gradS0 200 50 "#09090b" hInv hne).2.2⟩,
    c4_gradient_cache.2.2 gradS0 false 200 50 "#09090b" hInv⟩

/-! ## C10 -/

/-- C10: after a successful generation (id 0 for key (100,50,color)), a
request with a changed key that hits a context failure destroys id 0 yet
leaves the cache record unchanged (old key fields and the destroyed id 0
still cached), so a subsequent request repeating the old key returns the
destroyed texture id 0 without regenerating, leaving everything unchanged. -/
theorem c10_stale_cache_returns_destroyed :
    (getGradientTexture false 200 50 "#111111"
        (getGradientTexture true 100 50 "#111111" initGradSys).2).2.cache.texture
      = some 0 ∧
    (getGradientTexture false 200 50 "#111111"
        (getGradientTexture true 100 50 "#111111" initGradSys).2).2.cache.width
      = 100 ∧
    0 ∈ (getGradientTexture false 200 50 "#111111"
        (getGradientTexture true 100 50 "#111111" initGradSys).2).2.destroyed ∧
    (getGradientTexture true 100 50 "#111111"
        (getGradientTexture false 200 50 "#111111"
          (getGradientTexture true 100 50 "#111111" initGradSys).2).2).1
      = some 0 ∧
    (getGradientTexture true 100 50 "#111111"
        (getGradientTexture false 200 50 "#111111"
          (getGradientTexture true 100 50 "#111111" initGradSys).2).2).2
      = (getGradientTexture false 200 50 "#111111"
          (getGradientTexture true 100 50 "#111111" initGradSys).2).2 := by
  have h1 : getGradientTexture true 100 50 "#111111" initGradSys =
      (some 0, ⟨⟨some 0, 100, 50, "#111111"⟩, 1, []⟩) := by
    unfold getGradientTexture initGradSys
    rw [if_neg (by simp)]
    rfl
  have h2 : getGradientTexture false 200 50 "#111111"
      (⟨⟨some 0, 100, 50, "#111111"⟩, 1, []⟩ : GradSys) =
      (none, ⟨⟨some 0, 100, 50, "#111111"⟩, 1, [0]⟩) := by
    unfold getGradientTexture
    rw [if_neg (by norm_num)]
    rfl
  have h3 : getGradientTexture true 100 50 "#111111"
      (⟨⟨some 0, 100, 50, "#111111"⟩, 1, [0]⟩ : GradSys) =
      (some 0, ⟨⟨some 0, 100, 50, "#111111"⟩, 1, [0]⟩) := by
    unfold getGradientTexture
    rw [if_pos (by exact ⟨rfl, rfl, rfl, rfl⟩)]
  simp only [h1, h2, h3]
  simp

/-! ## C5 -/

lemma takeWhile_replicate_cons (z : ℕ) (c : Char) (l : List Char)
    (hc : ¬(c = '0')) :
    ((List.replicate z '0' ++ c :: l).takeWhile (fun ch => ch = '0')) =
      List.replicate z '0' := by
  induction z with
  | zero => simp [List.takeWhile_cons, hc]
  | succ n ih => simp [List.replicate_succ, List.takeWhile_cons, ih]

/-- The regex alternation of `formatPrice` on a fraction string holding `z`
leading zeros (z maximal: the next character is not '0') followed by at
least four digit characters matches exactly those `z` zeros and the next
four characters. -/
lemma regexCompact_structured (z : ℕ) (c1 c2 c3 c4 : Char) (tail : List Char)
    (hz : 1 ≤ z) (hc1 : c1 ≠ '0')
    (hd : c1.isDigit ∧ c2.isDigit ∧ c3.isDigit ∧ c4.isDigit)
    (str : String)
    (hstr : str.data =
      '0' :: '.' :: (List.replicate z '0' ++ c1 :: c2 :: c3 :: c4 :: tail)) :
    regexCompact str = some (z, String.mk [c1, c2, c3, c4]) := by
  unfold regexCompact
  rw [hstr]
  dsimp only
  rw [if_pos ⟨rfl, rfl⟩]
  rw [takeWhile_replicate_cons z c1 _ hc1]
  have hlen : (List.replicate z '0' ++ c1 :: c2 :: c3 :: c4 :: tail).length =
      z + (4 + tail.length) := by
    simp [List.length_append, List.length_replicate]
    omega
  rw [hlen, List.length_replicate]
  have hk : min z (z + (4 + tail.length) - 4) = z := by omega
  rw [hk]
  have hdrop : (List.replicate z '0' ++ c1 :: c2 :: c3 :: c4 :: tail).drop z =
      c1 :: c2 :: c3 :: c4 :: tail := by
    have hdl := List.drop_left (List.replicate z '0')
      (c1 :: c2 :: c3 :: c4 :: tail)
    rwa [List.length_replicate] at hdl
  rw [hdrop]
  have htake : (c1 :: c2 :: c3 :: c4 :: tail).take 4 = [c1, c2, c3, c4] := by
    simp [List.take]
  rw [htake]
  rw [if_pos ⟨hz, rfl, by simp [hd.1, hd.2.1, hd.2.2.1, hd.2.2.2]⟩]

/-- Concrete toFixed(20) expansion of the scenario price 0.0000012345. -/
lemma toFixedQ20_scenario :
    toFixedQ 20 (12345 / 10 ^ 10 : ℚ) = "0.00000123450000000000" := by
  unfold toFixedQ
  rw [if_neg (by norm_num)]
  unfold toFixedPos
  rw [show ⌊(12345 / 10 ^ 10 : ℚ) * 10 ^ 20 + 1 / 2⌋ =
      (123450000000000 : ℤ) from by norm_num]
  decide

/-- Concrete toFixed(20) expansion of 0.5: the leading fraction digit is
nonzero, so the compact pattern is absent. -/
lemma toFixedQ20_half :
    toFixedQ 20 (1 / 2 : ℚ) = "0.50000000000000000000" := by
  unfold toFixedQ
  rw [if_neg (by norm_num)]
  unfold toFixedPos
  rw [show ⌊(1 / 2 : ℚ) * 10 ^ 20 + 1 / 2⌋ =
      (50000000000000000000 : ℤ) from by norm_num]
  decide

/-- Concrete toFixed(2) expansion of the scenario price 150.5. -/
lemma toFixedQ2_scenario : toFixedQ 2 (1505 / 10 : ℚ) = "150.50" := by
  unfold toFixedQ
  rw [if_neg (by norm_num)]
  unfold toFixedPos
  rw [show ⌊(1505 / 10 : ℚ) * 10 ^ 2 + 1 / 2⌋ = (15050 : ℤ) from by norm_num]
  decide

/-- C5: formatPrice implements the tiered rules — 0 renders as "0", prices
at least 10000 as a grouped integer, prices in [100,10000) with two
decimals, prices in [1,100) with four decimals; a positive price below 1
whose toFixed(20) expansion has z >= 1 leading zero digits followed by at
least four digits renders in the compact leading-zero form with the zero
count and the next four digits, and when the pattern is absent the value
falls back to four significant digits; in particular 0.0000012345 renders
as "0.0(5)1234" and 150.5 as "150.50". -/
theorem c5_formatPrice_tiers :
    formatPrice 0 = "0" ∧
    (∀ p : ℚ, 10000 ≤ p → formatPrice p = toLocaleGrouped p) ∧
    (∀ p : ℚ, 100 ≤ p → p < 10000 → formatPrice p = toFixedQ 2 p) ∧
    (∀ p : ℚ, 1 ≤ p → p < 100 → formatPrice p = toFixedQ 4 p) ∧
    (∀ (p : ℚ) (z : ℕ) (c1 c2 c3 c4 : Char) (tail : List Char),
      p ≠ 0 → p < 1 →
      (toFixedQ 20 p).data =
        '0' :: '.' :: (List.replicate z '0' ++ c1 :: c2 :: c3 :: c4 :: tail) →
      1 ≤ z → c1 ≠ '0' →
      c1.isDigit ∧ c2.isDigit ∧ c3.isDigit ∧ c4.isDigit →
      formatPrice p =
        "0.0(" ++ Nat.repr z ++ ")" ++ String.mk [c1, c2, c3, c4]) ∧
    (∀ p : ℚ, p ≠ 0 → p < 1 → regexCompact (toFixedQ 20 p) = none →
      formatPrice p = toPrecisionQ 4 p) ∧
    formatPrice (12345 / 10 ^ 10) = "0.0(5)1234" ∧
    formatPrice (1505 / 10) = "150.50" := by
  refine ⟨rfl, ?_, ?_, ?_, ?_, ?_, ?_, ?_⟩
  · intro p hp
    unfold formatPrice
    rw [if_neg (by linarith), if_pos hp]
  · intro p h1 h2
    unfold formatPrice
    rw [if_neg (by linarith), if_neg (by linarith), if_pos h1]
  · intro p h1 h2
    unfold formatPrice
    rw [if_neg (by linarith), if_neg (by linarith), if_neg (by linarith),
        if_pos h1]
  · intro p z c1 c2 c3 c4 tail h0 h1 hstr hz hc1 hd
    unfold formatPrice
    rw [if_neg h0, if_neg (by linarith), if_neg (by linarith),
        if_neg (by linarith)]
    dsimp only
    rw [regexCompact_structured z c1 c2 c3 c4 tail hz hc1 hd _ hstr]
  · intro p h0 h1 hre
    unfold formatPrice
    rw [if_neg h0, if_neg (by linarith), if_neg (by linarith),
        if_neg (by linarith)]
    dsimp only
    rw [hre]
  · unfold formatPrice
    rw [if_neg (by norm_num), if_neg (by norm_num), if_neg (by norm_num),
        if_neg (by norm_num)]
    dsimp only
    rw [toFixedQ20_scenario]
    decide
  · unfold formatPrice
    rw [if_neg (by norm_num), if_neg (by norm_num), if_pos (by norm_num),
        toFixedQ2_scenario]

/-- Witness for C5 instantiating every guarded tier at a concrete price. -/
theorem c5_witness :
    ((10000 : ℚ) ≤ 12000 ∧ (100 : ℚ) ≤ 1505 / 10 ∧ (1505 / 10 : ℚ) < 10000 ∧
      (1 : ℚ) ≤ 2 ∧ (2 : ℚ) < 100 ∧
      (12345 / 10 ^ 10 : ℚ) ≠ 0 ∧ (12345 / 10 ^ 10 : ℚ) < 1 ∧
      (toFixedQ 20 (12345 / 10 ^ 10 : ℚ)).data =
        '0' :: '.' :: (List.replicate 5 '0' ++
          '1' :: '2' :: '3' :: '4' :: ('5' :: List.replicate 10 '0')) ∧
      (1 : ℕ) ≤ 5 ∧ ('1' : Char) ≠ '0' ∧
      (1 / 2 : ℚ) ≠ 0 ∧ (1 / 2 : ℚ) < 1 ∧
      regexCompact (toFixedQ 20 (1 / 2 : ℚ)) = none) ∧
    formatPrice 12000 = toLocaleGrouped 12000 ∧
    formatPrice (1505 / 10) = toFixedQ 2 (1505 / 10) ∧
    formatPrice 2 = toFixedQ 4 2 ∧
    formatPrice (12345 / 10 ^ 10) =
      "0.0(" ++ Nat.repr 5 ++ ")" ++ String.mk ['1', '2', '3', '4'] ∧
    formatPrice (1 / 2) = toPrecisionQ 4 (1 / 2) :=
  ⟨⟨by norm_num, by norm_num, by norm_num, by norm_num, by norm_num,
    by norm_num, by norm_num,
    by rw [toFixedQ20_scenario]; decide,
    by norm_num, by decide,
    by norm_num, by norm_num,
    by rw [toFixedQ20_half]; decide⟩,
   c5_formatPrice_tiers.2.1 12000 (by norm_num),
   c5_formatPrice_tiers.2.2.1 (1505 / 10) (by norm_num) (by norm_num),
   c5_formatPrice_tiers.2.2.2.1 2 (by norm_num) (by norm_num),
   c5_formatPrice_tiers.2.2.2.2.1 (12345 / 10 ^ 10) 5 '1' '2' '3' '4'
     ('5' :: List.replicate 10 '0') (by norm_num) (by norm_num)
     (by rw [toFixedQ20_scenario]; decide) (by norm_num) (by decide)
     (by decide),
   c5_formatPrice_tiers.2.2.2.2.2.1 (1 / 2) (by norm_num) (by norm_num)
     (by rw [toFixedQ20_half]; decide)⟩

/-! ## C6 -/

/-- An initialised state with a non-empty chart layer but an empty data
series. -/
def c6State : RState :=
  { baseState with data := [], chartLayer := [DrawOp.strokeOp] }

/-- C6 counterexample: with the surface initialised and a non-zero viewport
but an empty series, render is not a no-op — it clears the layers (the
clears run before the empty-data check), so the chart layer changes. -/
theorem c6_counterexample :
    c6State.ready = true ∧ c6State.width ≠ 0 ∧ c6State.height ≠ 0 ∧
    c6State.data = [] ∧ c6State.chartLayer = [DrawOp.strokeOp] ∧
    (render c6State).state.chartLayer = [] ∧
    (render c6State).state ≠ c6State := by
  have hr : render c6State = ⟨clearLayers c6State, false, false⟩ := by
    unfold render
    rw [if_neg (by simp [c6State, baseState]),
        if_neg (by norm_num [c6State, baseState])]
    dsimp only
    rw [if_pos (show (clearLayers c6State).data = [] from rfl)]
  refine ⟨rfl, by norm_num [c6State, baseState],
    by norm_num [c6State, baseState], rfl, rfl, ?_, ?_⟩
  · rw [hr]
    rfl
  · rw [hr]
    intro hcon
    have hcl := congrArg RState.chartLayer hcon
    simp [clearLayers, c6State] at hcl

/-- C6 (amended): render is a strict no-op when the surface is not
initialised or a viewport dimension is zero; when the series is empty (with
the other preconditions holding) it clears all six layers but performs no
drawing, leaves the axis, gradient and data state unchanged, submits no
frame and requests no animation frame. -/
theorem c6_render_noop_amended :
    (∀ s : RState, s.ready = false → render s = ⟨s, false, false⟩) ∧
    (∀ s : RState, s.width = 0 ∨ s.height = 0 → render s = ⟨s, false, false⟩) ∧
    (∀ s : RState, s.ready = true → s.width ≠ 0 → s.height ≠ 0 →
      s.data = [] →
      render s = ⟨clearLayers s, false, false⟩ ∧
      (render s).state.axis = s.axis ∧ (render s).state.grad = s.grad ∧
      (render s).state.data = s.data ∧
      (render s).frameSubmitted = false ∧
      (render s).frameRequested = false) := by
  refine ⟨?_, ?_, ?_⟩
  · intro s h
    unfold render
    rw [if_pos h]
  · intro s h
    unfold render
    by_cases hr : s.ready = false
    · rw [if_pos hr]
    · rw [if_neg hr, if_pos h]
  · intro s hr hw hh hd
    have hmain : render s = ⟨clearLayers s, false, false⟩ := by
      unfold render
      rw [if_neg (by simp [hr]), if_neg (by simp [hw, hh])]
      dsimp only
      rw [if_pos (show (clearLayers s).data = [] from hd)]
    exact ⟨hmain, by rw [hmain]; rfl, by rw [hmain]; rfl, by rw [hmain]; rfl,
      by rw [hmain], by rw [hmain]⟩

/-- Witness for C6 at three concrete states: uninitialised surface, zero
width, and empty data. -/
theorem c6_witness :
    (({ baseState with ready := false } : RState).ready = false ∧
      (({ baseState with width := (0 : ℚ) } : RState).width = 0 ∨
        ({ baseState with width := (0 : ℚ) } : RState).height = 0) ∧
      c6State.ready = true ∧ c6State.width ≠ 0 ∧ c6State.height ≠ 0 ∧
      c6State.data = []) ∧
    render { baseState with ready := false } =
      ⟨{ baseState with ready := false }, false, false⟩ ∧
    render { baseState with width := (0 : ℚ) } =
      ⟨{ baseState with width := (0 : ℚ) }, false, false⟩ ∧
    render c6State = ⟨clearLayers c6State, false, false⟩ :=
  ⟨⟨rfl, Or.inl rfl, rfl, by norm_num [c6State, baseState],
    by norm_num [c6State, baseState], rfl⟩,
   c6_render_noop_amended.1 _ rfl,
   c6_render_noop_amended.2.1 _ (Or.inl rfl),
   (c6_render_noop_amended.2.2 c6State rfl
     (by norm_num [c6State, baseState])
     (by norm_num [c6State, baseState]) rfl).1⟩

/-! ## C7 -/

/-- Membership of the implied-market-cap line in the tooltip items produced
by the crosshair block: the line is present iff both references are supplied
and truthy, the current price is positive, and the selected price is
nonzero; and when present it carries exactly the implied value
`currentMcap * (selectedPrice / currentPrice)`. -/
lemma crosshairBlock_mcap (width height : ℚ) (padding : Padding)
    (cc lc : ℕ) (lp : Bool) (pt : PricePoint) (x y : ℚ) (mc cp : Option ℚ) :
    ((∃ str a b, TooltipItem.mcapText str a b ∈
        (crosshairBlock width height padding cc lc lp pt x y mc cp).2) ↔
      (∃ m c, mc = some m ∧ cp = some c ∧ m ≠ 0 ∧ 0 < c ∧ pt.price ≠ 0)) ∧
    (∀ m c, mc = some m → cp = some c → m ≠ 0 → 0 < c → pt.price ≠ 0 →
      ∃ a b, TooltipItem.mcapText
        ("MCAP: " ++ formatCurrencyCompact (m * (pt.price / c))) a b ∈
        (crosshairBlock width height padding cc lc lp pt x y mc cp).2) := by
  unfold crosshairBlock
  dsimp only
  cases mc with
  | none =>
    simp [mcapVal]
  | some m =>
    cases cp with
    | none =>
      simp [mcapVal]
    | some c =>
      by_cases hcond : m ≠ 0 ∧ c ≠ 0 ∧ 0 < c
      · rw [mcapVal, if_pos hcond]
        by_cases hv : m * (pt.price / c) ≠ 0
        · have hsp : pt.price ≠ 0 := by
            intro hsp0
            apply hv
            rw [hsp0]
            ring
          constructor
          · constructor
            · intro hmem
              exact ⟨m, c, rfl, rfl, hcond.1, hcond.2.2, hsp⟩
            · intro hex
              simp only [hv, ne_eq, not_false_eq_true, if_true,
                List.cons_append, List.nil_append]
              exact ⟨_, _, _,
                List.Mem.tail _ (List.Mem.tail _ (List.Mem.head _))⟩
          · intro m' c' hm' hc' hm0 hc0 hsp'
            obtain rfl : m' = m := by injection hm' with h; exact h.symm
            obtain rfl : c' = c := by injection hc' with h; exact h.symm
            simp only [hv, ne_eq, not_false_eq_true, if_true,
              List.cons_append, List.nil_append]
            exact ⟨_, _,
              List.Mem.tail _ (List.Mem.tail _ (List.Mem.head _))⟩
        · push_neg at hv
          have hsp0 : pt.price = 0 := by
            rcases mul_eq_zero.1 hv with h | h
            · exact absurd h hcond.1
            · rcases div_eq_zero_iff.1 h with h' | h'
              · exact h'
              · exact absurd h' (ne_of_gt hcond.2.2)
          constructor
          · constructor
            · intro ⟨str, a, b, hmem⟩
              simp [hv] at hmem
            · intro ⟨m', c', hm', hc', hm0, hc0, hsp'⟩
              exact absurd hsp0 hsp'
          · intro m' c' hm' hc' hm0 hc0 hsp'
            exact absurd hsp0 hsp'
      · rw [mcapVal, if_neg hcond]
        constructor
        · constructor
          · intro ⟨str, a, b, hmem⟩
            simp at hmem
          · intro ⟨m', c', hm', hc', hm0, hc0, hsp'⟩
            obtain rfl : m' = m := by injection hm' with h; exact h.symm
            obtain rfl : c' = c := by injection hc' with h; exact h.symm
            exact absurd ⟨hm0, ne_of_gt hc0, hc0⟩ hcond
        · intro m' c' hm' hc' hm0 hc0 hsp'
          obtain rfl : m' = m := by injection hm' with h; exact h.symm
          obtain rfl : c' = c := by injection hc' with h; exact h.symm
          exact absurd ⟨hm0, ne_of_gt hc0, hc0⟩ hcond

/-- With an active crosshair and a valid selected point, the tooltip items
of a full render are exactly those of the crosshair block at the selected
point's pixel coordinates. -/
lemma mainRender_tooltip (s : RState) (pt : PricePoint)
    (hcx : 0 ≤ s.crosshairX) (hsi : 0 ≤ s.selectedIndex)
    (hpt : s.data.get? s.selectedIndex.toNat = some pt) :
    ∃ x y, (mainRender s).state.tooltipContainer =
      (crosshairBlock s.width s.height s.padding s.crosshairColorNum
        s.lineColorNum s.isLongPress pt x y
        s.currentMcap s.currentPrice).2 := by
  refine ⟨indexToX s.padding
      (pointSpacingOf (s.width - s.padding.left - s.padding.right)
        s.data.length) (s.selectedIndex : ℚ),
    priceToY (stepAxis s.axis) s.padding
      (s.height - s.padding.top - s.padding.bottom) pt.price, ?_⟩
  unfold mainRender
  dsimp only
  rw [if_pos ⟨hcx, hsi⟩, hpt]

/-- A state with an active crosshair, `currentMcap = 1000` supplied, and
`currentPrice = 0` supplied. -/
def c7CtrState : RState :=
  { baseState with
    crosshairX := 50, crosshairY := 50, selectedIndex := 0,
    currentMcap := some 1000, currentPrice := some 0 }

/-- C7 counterexample: both references are supplied (`currentMcap = 1000`,
`currentPrice = 0`) and the crosshair is active, yet the tooltip has no
implied-market-cap line — the code additionally requires a positive, truthy
current price. -/
theorem c7_counterexample :
    (c7CtrState.currentMcap = some 1000 ∧
      c7CtrState.currentPrice = some 0 ∧ c7CtrState.ready = true ∧
      0 ≤ c7CtrState.crosshairX ∧ 0 ≤ c7CtrState.selectedIndex) ∧
    ¬∃ str x y, TooltipItem.mcapText str x y ∈
      (render c7CtrState).state.tooltipContainer := by
  refine ⟨⟨rfl, rfl, rfl, by norm_num [c7CtrState, baseState],
    by simp [c7CtrState, baseState]⟩, ?_⟩
  set s0 : RState := c7CtrState with hs0
  intro hex
  have heq := render_eq_mainRender s0 rfl
    (by norm_num [hs0, c7CtrState, baseState])
    (by simp [hs0, c7CtrState, baseState, scenarioSeries])
  have hpt : (clearLayers s0).data.get? (clearLayers s0).selectedIndex.toNat =
      some ⟨0, 100⟩ := rfl
  obtain ⟨x0, y0, htc⟩ := mainRender_tooltip (clearLayers s0) ⟨0, 100⟩
    (by norm_num [clearLayers, hs0, c7CtrState, baseState])
    (by simp [clearLayers, hs0, c7CtrState, baseState]) hpt
  rw [heq, htc] at hex
  obtain ⟨m, c, hm, hc, hm0, hc0, hsp⟩ := (crosshairBlock_mcap _ _ _ _ _ _ _
    _ _ _ _).1.mp hex
  have hc' : (some (0 : ℚ)) = some c := hc
  obtain rfl : c = 0 := by injection hc' with h; exact h.symm
  exact absurd hc0 (by norm_num)

/-- C7 (amended): with an active crosshair selection, the tooltip contains
the implied market-cap line iff both references are supplied with
`currentMcap` nonzero (truthy), `currentPrice` positive, and the selected
price nonzero (so the computed value is itself truthy); when present, its
value is `currentMcap * (selectedPrice / currentPrice)`. -/
theorem c7_tooltip_mcap_amended :
    ∀ (s : RState) (pt : PricePoint),
      s.ready = true → s.width ≠ 0 → s.height ≠ 0 → s.data ≠ [] →
      0 ≤ s.crosshairX → 0 ≤ s.selectedIndex →
      s.data.get? s.selectedIndex.toNat = some pt →
      ((∃ str x y, TooltipItem.mcapText str x y ∈
          (render s).state.tooltipContainer) ↔
        (∃ mc cp, s.currentMcap = some mc ∧ s.currentPrice = some cp ∧
          mc ≠ 0 ∧ 0 < cp ∧ pt.price ≠ 0)) ∧
      (∀ mc cp, s.currentMcap = some mc → s.currentPrice = some cp →
        mc ≠ 0 → 0 < cp → pt.price ≠ 0 →
        ∃ x y, TooltipItem.mcapText
          ("MCAP: " ++ formatCurrencyCompact (mc * (pt.price / cp))) x y ∈
          (render s).state.tooltipContainer) := by
  intro s pt hr hw hh hd hcx hsi hpt
  rw [render_eq_mainRender s hr (by simp [hw, hh]) hd]
  obtain ⟨x0, y0, htc⟩ := mainRender_tooltip (clearLayers s) pt hcx hsi hpt
  rw [htc]
  exact ⟨(crosshairBlock_mcap _ _ _ _ _ _ _ _ _ _ _).1,
    fun mc cp h1 h2 h3 h4 h5 =>
      (crosshairBlock_mcap _ _ _ _ _ _ _ _ _ _ _).2 mc cp h1 h2 h3 h4 h5⟩

/-- A state with an active crosshair and both references supplied and
truthy. -/
def c7WitState : RState :=
  { baseState with
    crosshairX := 50, crosshairY := 50, selectedIndex := 0,
    currentMcap := some 1000, currentPrice := some 50 }

/-- Witness for C7 at `c7WitState`: the equivalence holds and the tooltip
carries the implied value 1000 * (100 / 50). -/
theorem c7_witness :
    (c7WitState.ready = true ∧ c7WitState.width ≠ 0 ∧
      c7WitState.height ≠ 0 ∧ c7WitState.data ≠ [] ∧
      0 ≤ c7WitState.crosshairX ∧ 0 ≤ c7WitState.selectedIndex ∧
      c7WitState.data.get? c7WitState.selectedIndex.toNat =
        some ⟨0, 100⟩ ∧
      c7WitState.currentMcap = some 1000 ∧
      c7WitState.currentPrice = some 50 ∧ (1000 : ℚ) ≠ 0 ∧ (0 : ℚ) < 50 ∧
      ((⟨0, 100⟩ : PricePoint) : PricePoint).price ≠ 0) ∧
    ((∃ str x y, TooltipItem.mcapText str x y ∈
        (render c7WitState).state.tooltipContainer) ↔
      (∃ mc cp, c7WitState.currentMcap = some mc ∧
        c7WitState.currentPrice = some cp ∧ mc ≠ 0 ∧ 0 < cp ∧
        (⟨0, 100⟩ : PricePoint).price ≠ 0)) ∧
    (∃ x y, TooltipItem.mcapText
      ("MCAP: " ++ formatCurrencyCompact
        (1000 * ((⟨0, 100⟩ : PricePoint).price / 50))) x y ∈
      (render c7WitState).state.tooltipContainer) :=
  ⟨⟨rfl, by norm_num [c7WitState, baseState],
    by norm_num [c7WitState, baseState],
    by simp [c7WitState, baseState, scenarioSeries],
    by norm_num [c7WitState, baseState],
    by simp [c7WitState, baseState], rfl, rfl, rfl, by norm_num,
    by norm_num, by norm_num⟩,
   (c7_tooltip_mcap_amended c7WitState ⟨0, 100⟩ rfl
     (by norm_num [c7WitState, baseState])
     (by norm_num [c7WitState, baseState])
     (by simp [c7WitState, baseState, scenarioSeries])
     (by norm_num [c7WitState, baseState])
     (by simp [c7WitState, baseState]) rfl).1,
   (c7_tooltip_mcap_amended c7WitState ⟨0, 100⟩ rfl
     (by norm_num [c7WitState, baseState])
     (by norm_num [c7WitState, baseState])
     (by simp [c7WitState, baseState, scenarioSeries])
     (by norm_num [c7WitState, baseState])
     (by simp [c7WitState, baseState]) rfl).2 1000 50 rfl rfl
     (by norm_num) (by norm_num) (by norm_num)⟩

/-! ## C8 -/

/-- Whenever the division does not produce NaN (point spacing nonzero, or
the cursor off the exact left padding), the pointer-move index lands on a
finite integer clamped into [0, n-1]. -/
lemma moveIndex_finite (x pl cw : ℚ) (n : ℕ) (hn : 1 ≤ n)
    (h : pointSpacingOf cw n ≠ 0 ∨ x ≠ pl) :
    ∃ i : ℕ, i < n ∧ moveIndex x pl cw n = JSVal.num (i : ℚ) := by
  unfold moveIndex
  dsimp only
  by_cases hps : pointSpacingOf cw n = 0
  · have hx : x ≠ pl := by
      rcases h with h | h
      · exact absurd hps h
      · exact h
    have hsub : x - pl ≠ 0 := sub_ne_zero.2 hx
    rcases lt_or_gt_of_ne hsub with hneg | hpos
    · refine ⟨0, by omega, ?_⟩
      simp only [jsDiv, if_pos hps, if_neg hsub,
        if_neg (not_lt.2 (le_of_lt hneg)), jsRound, clampJS, jsMax, jsMin]
      have h0 : (0 : ℚ) ≤ (n : ℚ) - 1 := by
        have h1 : (1 : ℚ) ≤ (n : ℚ) := by exact_mod_cast hn
        linarith
      rw [min_eq_left h0]
      norm_num
    · refine ⟨n - 1, by omega, ?_⟩
      simp only [jsDiv, if_pos hps, if_neg hsub, if_pos hpos, jsRound,
        clampJS, jsMax, jsMin]
      congr 1
      rw [Nat.cast_sub hn]
      norm_num
  · simp only [jsDiv, if_neg hps, jsRound, clampJS, jsMax, jsMin]
    refine ⟨(min (max ⌊(x - pl) / pointSpacingOf cw n + 1 / 2⌋ 0)
      ((n : ℤ) - 1)).toNat, ?_, ?_⟩
    · omega
    · congr 1
      have h0 : (0 : ℤ) ≤ min (max ⌊(x - pl) / pointSpacingOf cw n + 1 / 2⌋ 0)
          ((n : ℤ) - 1) := by omega
      have hj : (((min (max ⌊(x - pl) / pointSpacingOf cw n + 1 / 2⌋ 0)
          ((n : ℤ) - 1)).toNat : ℤ)) =
          min (max ⌊(x - pl) / pointSpacingOf cw n + 1 / 2⌋ 0)
            ((n : ℤ) - 1) := Int.toNat_of_nonneg h0
      exact_mod_cast hj.symm

/-- C8 counterexample: a single-point series with the cursor exactly at the
left padding gives 0/0 = NaN, which survives the clamp (Math.min/Math.max
propagate NaN), so the computed index is not in the valid range [0, 0] and
the guarded data access yields nothing. -/
theorem c8_counterexample :
    moveIndex 10 10 180 1 = JSVal.nan ∧
    (¬∃ i : ℕ, i < 1 ∧ moveIndex 10 10 180 1 = JSVal.num (i : ℚ)) ∧
    selectedPointAt [⟨0, 100⟩] (moveIndex 10 10 180 1) = none := by
  have h : moveIndex 10 10 180 1 = JSVal.nan := by
    unfold moveIndex pointSpacingOf
    norm_num [jsDiv, jsRound, clampJS, jsMax, jsMin]
  refine ⟨h, ?_, ?_⟩
  · rintro ⟨i, _, hc⟩
    rw [h] at hc
    exact JSVal.noConfusion hc
  · rw [h]
    rfl

/-- C8 (amended): for a non-empty series the computed pointer index is a
finite integer clamped into [0, n-1] and the guarded access selects an
existing data point, except in the 0/0 corner (point spacing 0 — e.g. a
single-point series — with the cursor exactly at paddingLeft) where the
index is NaN, escapes the clamp, and the guarded `data[index]` access
selects nothing, so the callback is skipped. -/
theorem c8_index_clamped_amended :
    (∀ (x pl cw : ℚ) (n : ℕ), 1 ≤ n →
      (pointSpacingOf cw n ≠ 0 ∨ x ≠ pl) →
      ∃ i : ℕ, i < n ∧ moveIndex x pl cw n = JSVal.num (i : ℚ)) ∧
    (∀ (data : List PricePoint) (x pl cw : ℚ), data ≠ [] →
      (pointSpacingOf cw data.length ≠ 0 ∨ x ≠ pl) →
      ∃ pt, selectedPointAt data (moveIndex x pl cw data.length) = some pt ∧
        pt ∈ data) ∧
    (∀ (data : List PricePoint) (x pl cw : ℚ),
      pointSpacingOf cw data.length = 0 → x = pl →
      moveIndex x pl cw data.length = JSVal.nan ∧
      selectedPointAt data (moveIndex x pl cw data.length) = none) := by
  refine ⟨fun x pl cw n hn h => moveIndex_finite x pl cw n hn h, ?_, ?_⟩
  · intro data x pl cw hne h
    have hn : 1 ≤ data.length := by
      cases data with
      | nil => exact absurd rfl hne
      | cons a l => simp
    obtain ⟨i, hi, hmi⟩ := moveIndex_finite x pl cw data.length hn h
    rw [hmi]
    simp only [selectedPointAt]
    rw [if_pos ⟨Nat.cast_nonneg i, Rat.den_natCast i⟩]
    have hnum : ((i : ℚ)).num.toNat = i := by
      rw [Rat.num_natCast]
      exact Int.toNat_natCast i
    rw [hnum]
    exact ⟨data.get ⟨i, hi⟩, List.get?_eq_get hi, List.get_mem data i hi⟩
  · intro data x pl cw hps hx
    subst hx
    have hmi : moveIndex x x cw data.length = JSVal.nan := by
      unfold moveIndex
      dsimp only
      rw [hps]
      simp [jsDiv, jsRound, clampJS, jsMax, jsMin]
    exact ⟨hmi, by rw [hmi]; rfl⟩

/-- Witness for C8: a 3-point series with cursor at x=20 selects a valid
index and point; the single-point series with the cursor at paddingLeft
hits the NaN corner. -/
theorem c8_witness :
    ((1 : ℕ) ≤ 3 ∧ (pointSpacingOf 180 3 ≠ 0 ∨ (20 : ℚ) ≠ 10) ∧
      ([(⟨0, 100⟩ : PricePoint), ⟨60, 110⟩, ⟨120, 90⟩] ≠
        ([] : List PricePoint)) ∧
      (pointSpacingOf 180
        (List.length [(⟨0, 100⟩ : PricePoint), ⟨60, 110⟩, ⟨120, 90⟩]) ≠ 0 ∨
        (20 : ℚ) ≠ 10) ∧
      pointSpacingOf 180 (List.length [(⟨0, 100⟩ : PricePoint)]) = 0 ∧
      (10 : ℚ) = 10) ∧
    (∃ i : ℕ, i < 3 ∧ moveIndex 20 10 180 3 = JSVal.num (i : ℚ)) ∧
    (∃ pt, selectedPointAt [(⟨0, 100⟩ : PricePoint), ⟨60, 110⟩, ⟨120, 90⟩]
        (moveIndex 20 10 180
          (List.length [(⟨0, 100⟩ : PricePoint), ⟨60, 110⟩, ⟨120, 90⟩])) =
        some pt ∧
      pt ∈ [(⟨0, 100⟩ : PricePoint), ⟨60, 110⟩, ⟨120, 90⟩]) ∧
    (moveIndex 10 10 180 (List.length [(⟨0, 100⟩ : PricePoint)]) =
        JSVal.nan ∧
      selectedPointAt [(⟨0, 100⟩ : PricePoint)]
        (moveIndex 10 10 180 (List.length [(⟨0, 100⟩ : PricePoint)])) =
        none) :=
  ⟨⟨by norm_num,
    Or.inl (by norm_num [pointSpacingOf]),
    by simp,
    Or.inl (by norm_num [pointSpacingOf]),
    rfl, rfl⟩,
   c8_index_clamped_amended.1 20 10 180 3 (by norm_num)
     (Or.inl (by norm_num [pointSpacingOf])),
   c8_index_clamped_amended.2.1 [⟨0, 100⟩, ⟨60, 110⟩, ⟨120, 90⟩] 20 10 180
     (by simp) (Or.inl (by norm_num [pointSpacingOf])),
   c8_index_clamped_amended.2.2 [⟨0, 100⟩] 10 10 180 rfl rfl⟩

/-! ## C9 -/

/-- C9: pointer-up does cancel a pending timer and clears the long-press
flag, but the teardown cleanup does not touch the timer, and no
pointer-capture-loss handler exists: after pointer-down followed by
teardown (or capture loss) the timer is still pending, and when it later
fires it sets the long-press flag on the torn-down component. -/
theorem c9_longpress_timer_lifecycle :
    (∀ s : IState, (pstep s PEvent.up).timerPending = false ∧
      (pstep s PEvent.up).isLongPress = false) ∧
    (prun initIState [PEvent.down, PEvent.teardown]).tornDown = true ∧
    (prun initIState [PEvent.down, PEvent.teardown]).timerPending = true ∧
    (prun initIState
      [PEvent.down, PEvent.teardown, PEvent.timerFire]).isLongPress = true ∧
    (prun initIState [PEvent.down, PEvent.lostCapture]).timerPending =
      true :=
  ⟨fun s => ⟨rfl, rfl⟩, by decide, by decide, by decide, by decide⟩

end Chart
